import Mathlib

/-!
Shallow embedding of the pymupdf-in-dify tools (src/tools/to_text.py,
src/tools/pymupdf.py, src/tools/to_markdown.py).

The external PyMuPDF library (fitz/pymupdf) is modelled as an oracle carried
by the input: each file carries the outcome of `fitz.open` on its bytes, each
page carries the outcome of `page.get_text()` and its `page.get_images(...)`
list, and each image reference carries the outcomes of
`document.extract_image(xref)`, `Pixmap(...).tobytes("png")` and of writing
its bytes to disk.  Filesystem writes that the code treats as infallible
bookkeeping (`mkdir` with `exist_ok=True`) are modelled as succeeding.
The `import pymupdf` / `import fitz` step is modelled as succeeding (the
`LibraryUnavailable` path is outside the claims under verification).

Messages are modelled structurally: JSON payloads as a small JSON value type,
blob payloads either as raw bytes or, for the zip archive built by
to_markdown.py, as the list of (archive name, bytes) entries handed to the
external zip encoder (entries listed in creation order).
-/

/-- Raw bytes, as natural numbers < 256. -/
abbrev Bytes := List Nat

/-- Model of UTF-8 encoding of one code point (Python `str.encode`). -/
def utf8Cp (c : Nat) : List Nat :=
  if c < 0x80 then [c]
  else if c < 0x800 then [0xC0 + c / 0x40, 0x80 + c % 0x40]
  else if c < 0x10000 then
    [0xE0 + c / 0x1000, 0x80 + (c / 0x40) % 0x40, 0x80 + c % 0x40]
  else
    [0xF0 + c / 0x40000, 0x80 + (c / 0x1000) % 0x40, 0x80 + (c / 0x40) % 0x40,
     0x80 + c % 0x40]

/-- Model of Python `str.encode()` (UTF-8). -/
def strEncode (s : String) : Bytes :=
  s.data.flatMap (fun c => utf8Cp c.toNat)

/-- Model of Python `sep.join(parts)`. -/
def joinSep (sep : String) : List String → String
  | [] => ""
  | [a] => a
  | a :: b :: rest => a ++ sep ++ joinSep sep (b :: rest)

/-- JSON values, for the structured JSON messages. -/
inductive JVal where
  | null
  | str (s : String)
  | num (n : Nat)
  | arr (elems : List JVal)
  | obj (fields : List (String × JVal))

/-- Payload of a blob message: raw bytes, or a zip archive given by its
entries (name, bytes) in creation order. -/
inductive BlobPayload where
  | bytes (bs : Bytes)
  | zip (entries : List (String × Bytes))

/-- A message yielded by a tool (`create_text_message`, `create_json_message`,
`create_blob_message`); blob meta dicts are modelled as JSON objects. -/
inductive Msg where
  | text (s : String)
  | json (j : JVal)
  | blob (payload : BlobPayload) (meta : JVal)

/-- Events of one tool invocation: document-handle acquisition/release
(`fitz.open` succeeding / `document.close()`) interleaved with the yielded
messages, in program order. -/
inductive Event where
  | openDoc
  | closeDoc
  | emit (m : Msg)

/-- The messages of an event trace, in order. -/
def msgsOf (es : List Event) : List Msg :=
  es.filterMap (fun e => match e with | .emit m => some m | _ => none)

/-- Document-handle scope checker: scans a trace with the state "is a handle
currently open"; `none` means a second handle was opened before the previous
one was released.  A trace is well scoped when the scan ends in state
`some false`: every opened handle was closed before the next open and by the
end of the trace. -/
def scopeState : List Event → Bool → Option Bool
  | [], o => some o
  | .openDoc :: rest, false => scopeState rest true
  | .openDoc :: _, true => none
  | .closeDoc :: rest, true => scopeState rest false
  | .closeDoc :: _, false => none
  | .emit _ :: rest, o => scopeState rest o

/-- Every document handle opened in the trace is released before the next
open and before the end of the trace. -/
def wellScoped (es : List Event) : Prop := scopeState es false = some false

/-- First text message of a message list, if any. -/
def firstText : List Msg → Option String
  | [] => none
  | .text s :: _ => some s
  | _ :: rest => firstText rest

/-- First raw-bytes blob message of a message list, if any. -/
def firstBlobBytes : List Msg → Option Bytes
  | [] => none
  | .blob (.bytes bs) _ :: _ => some bs
  | _ :: rest => firstBlobBytes rest

/-- Number of (possibly overlapping) occurrence positions of `pat` in a
character list. -/
def countOccAux (pat : List Char) : List Char → Nat
  | [] => 0
  | c :: rest =>
    (if pat.isPrefixOf (c :: rest) then 1 else 0) + countOccAux pat rest

/-- Number of occurrence positions of `pat` in `s`. -/
def countOcc (pat s : String) : Nat := countOccAux pat.data s.data

/-- Model of Python `str.lower()` on one character (the format tags lowered
here are ASCII). -/
def lowerChar (c : Char) : Char :=
  if 65 ≤ c.toNat ∧ c.toNat ≤ 90 then Char.ofNat (c.toNat + 32) else c

/-- Model of Python `str.lower()`. -/
def toLowerPy (s : String) : String := ⟨s.data.map lowerChar⟩

/-- Python's default `str.strip()` whitespace. -/
def isSpaceChar (c : Char) : Bool :=
  c == ' ' || c == '\t' || c == '\n' || c == '\r' || c == '\x0b' || c == '\x0c'

/-- Model of Python `str.strip()`. -/
def pyStrip (s : String) : String :=
  ⟨((s.data.dropWhile isSpaceChar).reverse.dropWhile isSpaceChar).reverse⟩

/-- Model of Python `str.replace(" ", "_")`. -/
def replaceSpaces (s : String) : String :=
  ⟨s.data.map (fun c => if c = ' ' then '_' else c)⟩

/-- Model of Python `Path(name).stem`: the final path component without its
last extension (a leading dot does not start an extension). -/
def stemOf (s : String) : String :=
  let name := (s.data.reverse.takeWhile (fun c => c ≠ '/')).reverse
  match name.reverse.dropWhile (fun c => c ≠ '.') with
  | [] => ⟨name⟩
  | [_] => ⟨name⟩
  | _ :: rest => ⟨rest.reverse⟩

/-- The help message yielded when no files are provided. -/
def helpMsg : String := "No files provided. Please upload PDF files for processing."

/-- The literal page separator of the plain-text outputs. -/
def pageBreakSep : String := "\n\n---PAGE BREAK---\n\n"

/-- Result of `document.extract_image(xref)` when it does not raise: the
`ext` tag (`None` modelled as `none`) and the raw encoded bytes under the
`"image"` key (`none` when the key is absent / `get` returns `None`). -/
structure ExtractedImage where
  ext : Option String
  image : Option Bytes

/-- One entry of `page.get_images(full=True)` together with the oracle for
the external operations applied to it. -/
structure ImgSpec where
  /-- Outcome of `document.extract_image(xref)`; `.error e` models a raised
  exception with `str(exc) = e`. -/
  extract : Except String ExtractedImage
  /-- Outcome of `Pixmap(document, xref).tobytes("png")`. -/
  pixmapPng : Except String Bytes
  /-- Outcome of writing this image's bytes to its target file. -/
  write : Except String Unit

/-- One page of an opened document. -/
structure PageSpec where
  /-- Outcome of `page.get_text()`. -/
  getText : Except String String
  /-- `page.get_images(full=True)`. -/
  images : List ImgSpec

/-- An opened document. -/
structure DocSpec where
  pages : List PageSpec

/-- One input file with the oracle for opening it: `.error e` models
`fitz.open(stream=BytesIO(file.blob), filetype="pdf")` raising with
`str(exc) = e`. -/
structure FileInput where
  filename : String
  openResult : Except String DocSpec
  /-- Outcome of `markdown_path.write_text(...)` in to_markdown.py. -/
  writeMarkdown : Except String Unit

/-! ## ToTextTool (src/tools/to_text.py) -/

namespace ToText

/-- `ToolParameters` of to_text.py after validation; `files = none` models a
parameter dict whose `"files"` entry is missing or `None`. -/
structure Params where
  files : Option (List FileInput)

/-- One element of the `documents` list built per page. -/
structure PageRecord where
  text : String
  page : Nat
  fileName : String

/-- The JSON rendering of one `documents` entry:
`{"text": ..., "metadata": {"page": ..., "file_name": ...}}`. -/
def pageRecordJson (r : PageRecord) : JVal :=
  .obj [("text", .str r.text),
        ("metadata", .obj [("page", .num r.page), ("file_name", .str r.fileName)])]

/-- The page loop of to_text.py (lines 42-53): pages are read in order; a
raised `get_text` aborts the loop with that exception. `n` is the 0-based
index of the first page in the list. -/
def collectDocs (fname : String) (n : Nat) : List PageSpec → Except String (List PageRecord)
  | [] => .ok []
  | p :: rest =>
    match p.getText with
    | .error e => .error e
    | .ok t =>
      match collectDocs fname (n + 1) rest with
      | .error e => .error e
      | .ok ds => .ok (⟨t, n + 1, fname⟩ :: ds)

/-- The JSON error entry `{filename: {"error": str(exc)}}`. -/
def errJson (fname e : String) : JVal := .obj [(fname, .obj [("error", .str e)])]

/-- Event trace for one file of the batch (to_text.py lines 32-74). -/
def fileEvents (f : FileInput) : List Event :=
  match f.openResult with
  | .error e =>
    [.emit (.text ("Error processing " ++ f.filename ++ ": " ++ e)),
     .emit (.json (errJson f.filename e))]
  | .ok doc =>
    match collectDocs f.filename 0 doc.pages with
    | .error e =>
      [.openDoc, .closeDoc,
       .emit (.text ("Error processing " ++ f.filename ++ ": " ++ e)),
       .emit (.json (errJson f.filename e))]
    | .ok docs =>
      let texts := joinSep pageBreakSep (docs.map PageRecord.text)
      [.openDoc, .closeDoc,
       .emit (.text texts),
       .emit (.json (.obj [(f.filename, .arr (docs.map pageRecordJson))])),
       .emit (.blob (.bytes (strEncode texts)) (.obj [("mime_type", .str "text/plain")]))]

/-- Full event trace of `ToTextTool._invoke`. -/
def invokeEvents (p : Params) : List Event :=
  match p.files with
  | none => [.emit (.text helpMsg)]
  | some files => files.flatMap fileEvents

/-- Messages yielded by `ToTextTool._invoke`. -/
def invokeMsgs (p : Params) : List Msg := msgsOf (invokeEvents p)

end ToText

/-! ## PymupdfTool (src/tools/pymupdf.py) -/

namespace Pymupdf

/-- `ToolParameters` of pymupdf.py after pydantic validation: `files` as for
to_text.py, and `save_images: bool = True`.  Validation guarantees the field
is a `bool`, which the embedding reflects by giving it type `Bool`. -/
structure Params where
  files : Option (List FileInput)
  saveImages : Bool

/-- Model of `isinstance(params.save_images, bool)` on the post-validation
value: pydantic's `bool`-typed field always holds a `bool`, so the check is
constantly true. -/
def isBoolInstance (_ : Bool) : Bool := true

/-- The literal message of the dead `save_images` validation branch. -/
def invalidSaveImagesMsg : String :=
  "Invalid parameter: \x27save_images\x27 must be a boolean."

/-- One entry of the `extracted_images` list. -/
structure PyImgRec where
  page : Nat
  imageIndex : Nat
  path : String

/-- JSON rendering of one `extracted_images` entry. -/
def pyImgRecJson (i : PyImgRec) : JVal :=
  .obj [("page", .num i.page), ("image_index", .num i.imageIndex),
        ("path", .str i.path)]

/-- One entry of the `documents` list of pymupdf.py: the page record, plus
the `"images"` key that is added only when `extracted_images` is nonempty. -/
structure PyRecord where
  text : String
  page : Nat
  fileName : String
  images : List PyImgRec

/-- JSON rendering of one pymupdf.py `documents` entry. -/
def pyRecordJson (r : PyRecord) : JVal :=
  .obj ([("text", .str r.text),
         ("metadata", .obj [("page", .num r.page), ("file_name", .str r.fileName)])] ++
        (if r.images.isEmpty then [] else [("images", .arr (r.images.map pyImgRecJson))]))

/-- The image target path of pymupdf.py lines 89-92. -/
def pyImagePath (stem : String) (pageNum idx : Nat) (ext : String) : String :=
  "/tmp/pymupdf-images/" ++ stem ++ "_page" ++ toString pageNum ++
    "_image" ++ toString idx ++ "." ++ ext

/-- The image loop of pymupdf.py lines 82-104 (only run when
`save_images` is true).  There is no per-image exception handler: a raised
`extract_image` or a failed file write aborts the whole file with that
exception.  `idx` is the 1-based `enumerate(images, start=1)` counter.
Returns the `extracted_images` records and the Markdown image lines. -/
def pyImages (stem : String) (pageNum : Nat) (idx : Nat) :
    List ImgSpec → Except String (List PyImgRec × List String)
  | [] => .ok ([], [])
  | img :: rest =>
    match img.extract with
    | .error e => .error e
    | .ok base =>
      match base.image with
      | none => pyImages stem pageNum (idx + 1) rest
      | some _bs =>
        let ext := base.ext.getD "png"
        let path := pyImagePath stem pageNum idx ext
        match img.write with
        | .error e => .error e
        | .ok _ =>
          match pyImages stem pageNum (idx + 1) rest with
          | .error e => .error e
          | .ok (recs, mds) =>
            .ok (⟨pageNum, idx, path⟩ :: recs,
                 ("![Page " ++ toString pageNum ++ " Image " ++ toString idx ++
                    "](" ++ path ++ ")") :: mds)

/-- The page loop of pymupdf.py lines 65-112: per page, the `documents`
record and the Markdown parts appended for that page, with no exception
handler inside the loop.  `n` is the 0-based index of the first page. -/
def pyPages (fname stem : String) (save : Bool) (n : Nat) :
    List PageSpec → Except String (List PyRecord × List String)
  | [] => .ok ([], [])
  | p :: rest =>
    match p.getText with
    | .error e => .error e
    | .ok text =>
      let mdHead := ["\n## Page " ++ toString (n + 1),
                     if text = "" then "_No text content extracted._" else text]
      if save then
        match pyImages stem (n + 1) 1 p.images with
        | .error e => .error e
        | .ok (recs, mdImgs) =>
          match pyPages fname stem save (n + 1) rest with
          | .error e => .error e
          | .ok (docs, mds) =>
            .ok (⟨text, n + 1, fname, recs⟩ :: docs, mdHead ++ mdImgs ++ mds)
      else
        let note := if p.images.isEmpty then [] else
          ["_Images detected on this page were skipped (save_images=false)._"]
        match pyPages fname stem save (n + 1) rest with
        | .error e => .error e
        | .ok (docs, mds) =>
          .ok (⟨text, n + 1, fname, []⟩ :: docs, mdHead ++ note ++ mds)

/-- The JSON error entry `{filename: {"error": str(e)}}`. -/
def errJson (fname e : String) : JVal := .obj [(fname, .obj [("error", .str e)])]

/-- Event trace for one file of the batch (pymupdf.py lines 50-140).  Note
that `doc.close()` (line 115) is only reached on the success path: an
exception raised inside the page loop jumps to the handler at line 134
without closing the document. -/
def fileEvents (save : Bool) (f : FileInput) : List Event :=
  match f.openResult with
  | .error e =>
    [.emit (.text ("Error processing " ++ f.filename ++ ": " ++ e)),
     .emit (.json (errJson f.filename e))]
  | .ok doc =>
    let stem := replaceSpaces (stemOf f.filename)
    .openDoc ::
      match pyPages f.filename stem save 0 doc.pages with
      | .error e =>
        [.emit (.text ("Error processing " ++ f.filename ++ ": " ++ e)),
         .emit (.json (errJson f.filename e))]
      | .ok (docs, mdParts) =>
        let texts := joinSep pageBreakSep (docs.map PyRecord.text)
        let mdAll := ("# " ++ f.filename) ::
          ("Total pages: " ++ toString doc.pages.length) :: mdParts
        [.closeDoc,
         .emit (.text (joinSep "\n\n" mdAll)),
         .emit (.json (.obj [(f.filename, .arr (docs.map pyRecordJson))])),
         .emit (.blob (.bytes (strEncode texts)) (.obj [("mime_type", .str "text/plain")]))]

/-- Full event trace of `PymupdfTool._invoke`. -/
def invokeEvents (p : Params) : List Event :=
  match p.files with
  | none => [.emit (.text helpMsg)]
  | some files =>
    if isBoolInstance p.saveImages then files.flatMap (fileEvents p.saveImages)
    else [.emit (.text invalidSaveImagesMsg)]

/-- The same trace with the dead `isinstance(save_images, bool)` check
removed, used to state that the check is unreachable. -/
def invokeEventsNoCheck (p : Params) : List Event :=
  match p.files with
  | none => [.emit (.text helpMsg)]
  | some files => files.flatMap (fileEvents p.saveImages)

/-- Messages yielded by `PymupdfTool._invoke`. -/
def invokeMsgs (p : Params) : List Msg := msgsOf (invokeEvents p)

end Pymupdf

/-! ## ToMarkdownTool (src/tools/to_markdown.py) -/

namespace ToMarkdown

/-- `ToolParameters` of to_markdown.py after validation (it declares only
`files`; unknown parameter names in the input dict are ignored by the
validator, and a validation failure is reported before any processing). -/
structure Params where
  files : Option (List FileInput)

/-- `file.filename or "file"`, as used in the open-error text message. -/
def displayName (f : FileInput) : String :=
  if f.filename = "" then "file" else f.filename

/-- `file.filename or base_name`, the JSON payload key of a file. -/
def jsonKey (f : FileInput) (baseName : String) : String :=
  if f.filename = "" then baseName else f.filename

/-- The relative image path `images/page-<n>-image-<i>.<ext>`. -/
def mdRelPath (pageNum idx1 : Nat) (ext : String) : String :=
  "images/page-" ++ toString pageNum ++ "-image-" ++ toString idx1 ++ "." ++ ext

/-- A successfully saved image: its Markdown line, its metadata record
(shared by `images_info` and `file_meta`), and the file written under the
temporary directory (archive name, bytes). -/
structure MdImgKeep where
  mdLine : String
  record : JVal
  written : String × Bytes

/-- Outcome of processing one embedded image in to_markdown.py. -/
inductive MdImgOut where
  | err (msg : String)
  | keep (k : MdImgKeep)

/-- One iteration of the image loop of to_markdown.py lines 84-133, for the
image of 0-based index `idx0` on page `pageNum`:
format tag defaulting and lowercasing, the pixel-level PNG re-render for
unsupported formats, the write guarded for `OSError`, and the surrounding
per-image exception handler. -/
def mdImgStep (fname baseName : String) (pageNum idx0 : Nat) (img : ImgSpec) : MdImgOut :=
  let idx1 := idx0 + 1
  let failSave : String → MdImgOut := fun e =>
    .err ("Failed to save image " ++ toString idx1 ++ " on page " ++
      toString pageNum ++ " for " ++ fname ++ ": " ++ e)
  match img.extract with
  | .error e => failSave e
  | .ok info =>
    let extRaw := match info.ext with
      | none => "png"
      | some s => if s = "" then "png" else s
    let ext0 := toLowerPy extRaw
    let bytesRes : Except String (Bytes × String) :=
      if ext0 ∈ ["png", "jpg", "jpeg"] then
        match info.image with
        | none => .error "\x27image\x27"
        | some bs => .ok (bs, ext0)
      else
        match img.pixmapPng with
        | .error e => .error e
        | .ok pbs => .ok (pbs, "png")
    match bytesRes with
    | .error e => failSave e
    | .ok (bs, ext) =>
      let mime := if ext = "png" then "image/png" else "image/jpeg"
      let rel := mdRelPath pageNum idx1 ext
      match img.write with
      | .error we =>
        .err ("Failed to write image " ++ toString idx1 ++ " on page " ++
          toString pageNum ++ " for " ++ fname ++ ": " ++ we)
      | .ok _ =>
        .keep ⟨"![Page " ++ toString pageNum ++ " Image " ++ toString idx1 ++
                 "](" ++ rel ++ ")",
               .obj [("page", .num pageNum), ("index", .num idx1),
                     ("path", .str (baseName ++ "/" ++ rel)),
                     ("filename", .str ("page-" ++ toString pageNum ++ "-image-" ++
                        toString idx1 ++ "." ++ ext)),
                     ("mime_type", .str mime)],
               (baseName ++ "/" ++ rel, bs)⟩

/-- Accumulated outputs of an image loop: Markdown lines, `images_info`
records, `image_errors` entries and files written, each in order. -/
structure ImgAcc where
  mdLines : List String
  infos : List JVal
  errors : List String
  written : List (String × Bytes)

/-- Concatenation of image-loop outputs. -/
def ImgAcc.append (a b : ImgAcc) : ImgAcc :=
  ⟨a.mdLines ++ b.mdLines, a.infos ++ b.infos, a.errors ++ b.errors,
   a.written ++ b.written⟩

/-- The contribution of one image outcome: a failed image contributes only
its error message; a saved image contributes its Markdown line, its record
and its written file. -/
def mdImgContrib : MdImgOut → ImgAcc
  | .err m => ⟨[], [], [m], []⟩
  | .keep k => ⟨[k.mdLine], [k.record], [], [k.written]⟩

/-- The image loop of to_markdown.py over the images of one page, starting
at 0-based index `idx0`. -/
def mdImgs (fname baseName : String) (pageNum idx0 : Nat) : List ImgSpec → ImgAcc
  | [] => ⟨[], [], [], []⟩
  | img :: rest =>
    ImgAcc.append (mdImgContrib (mdImgStep fname baseName pageNum idx0 img))
      (mdImgs fname baseName pageNum (idx0 + 1) rest)

/-- Accumulated outputs of the page loop: `markdown_lines`, `page_entries`,
`file_meta` and `image_errors` contributions, and files written. -/
structure PagesAcc where
  mdLines : List String
  entries : List JVal
  meta : List JVal
  errors : List String
  written : List (String × Bytes)

/-- Concatenation of page-loop outputs. -/
def PagesAcc.append (a b : PagesAcc) : PagesAcc :=
  ⟨a.mdLines ++ b.mdLines, a.entries ++ b.entries, a.meta ++ b.meta,
   a.errors ++ b.errors, a.written ++ b.written⟩

/-- The outputs of one successfully read page (to_markdown.py lines 76-141):
the `## Page <n>` heading, the stripped text (empty text giving an empty
line), the image outputs, and the page entry `{page, text, images}`. -/
def mdPageOut (fname baseName : String) (i : Nat) (text : String)
    (images : List ImgSpec) : PagesAcc :=
  let a := mdImgs fname baseName (i + 1) 0 images
  ⟨("## Page " ++ toString (i + 1)) :: (if text = "" then "" else pyStrip text) ::
     a.mdLines,
   [.obj [("page", .num (i + 1)), ("text", .str text), ("images", .arr a.infos)]],
   a.infos, a.errors, a.written⟩

/-- The page loop of to_markdown.py, from 0-based page index `i`.  A raised
`get_text` aborts the loop with the exception and the files written so far
(which remain on disk and hence in the archive). -/
def mdPages (fname baseName : String) (i : Nat) :
    List PageSpec → Except (String × List (String × Bytes)) PagesAcc
  | [] => .ok ⟨[], [], [], [], []⟩
  | p :: rest =>
    match p.getText with
    | .error e => .error (e, [])
    | .ok text =>
      let here := mdPageOut fname baseName i text p.images
      match mdPages fname baseName (i + 1) rest with
      | .error (e, w) => .error (e, here.written ++ w)
      | .ok acc => .ok (PagesAcc.append here acc)

/-- `markdown_content` (to_markdown.py line 143). -/
def markdownContent (mdLines : List String) : String :=
  pyStrip (joinSep "\n\n" mdLines)

/-- The per-file outcome: inline events (document open/close and error
messages), the file's JSON payload entry, its summary line if it was
processed, its `all_files_meta` contribution, and the files it left under
the temporary directory. -/
structure MdFileResult where
  events : List Event
  entry : String × JVal
  summary : Option String
  meta : List JVal
  written : List (String × Bytes)

/-- Processing of one file of the batch (to_markdown.py lines 55-178),
including the markdown write guarded for `OSError` and the `finally` that
always closes the document once it was opened. -/
def mdProcessFile (f : FileInput) : MdFileResult :=
  let baseName := stemOf (if f.filename = "" then "document.pdf" else f.filename)
  match f.openResult with
  | .error e =>
    ⟨[.emit (.text ("Error opening " ++ displayName f ++ ": " ++ e))],
     (jsonKey f baseName, .obj [("error", .str e)]), none, [], []⟩
  | .ok doc =>
    match mdPages f.filename baseName 0 doc.pages with
    | .error (e, written) =>
      ⟨[.openDoc,
        .emit (.text ("Error processing " ++ jsonKey f baseName ++ ": " ++ e)),
        .closeDoc],
       (jsonKey f baseName, .obj [("error", .str e)]), none, [], written⟩
    | .ok acc =>
      let content := markdownContent acc.mdLines
      let mdFilename := baseName ++ ".md"
      let summary := "Processed " ++ jsonKey f baseName ++ " with " ++
        toString doc.pages.length ++ " pages."
      match f.writeMarkdown with
      | .error we =>
        let errs := acc.errors ++
          ["Failed to write markdown for " ++ f.filename ++ ": " ++ we]
        ⟨[.openDoc, .closeDoc],
         (jsonKey f baseName,
          .obj [("markdown_path", .null), ("pages", .arr acc.entries),
                ("files", .arr acc.meta),
                ("image_errors", .arr (errs.map JVal.str))]),
         some summary, acc.meta, acc.written⟩
      | .ok _ =>
        let mdMeta : JVal := .obj [("path", .str (baseName ++ "/" ++ mdFilename)),
                                   ("filename", .str mdFilename),
                                   ("mime_type", .str "text/markdown")]
        let meta := acc.meta ++ [mdMeta]
        ⟨[.openDoc, .closeDoc],
         (jsonKey f baseName,
          .obj [("markdown_path", .str (baseName ++ "/" ++ mdFilename)),
                ("pages", .arr acc.entries), ("files", .arr meta),
                ("image_errors", .arr (acc.errors.map JVal.str))]),
         some summary, meta,
         acc.written ++ [(baseName ++ "/" ++ mdFilename, strEncode content)]⟩

/-- The batch-level messages yielded after the file loop (to_markdown.py
lines 180-200): the joined summary lines when at least one file was
processed, the single aggregated JSON message, and the single zip blob. -/
def tailMsgs (results : List MdFileResult) : List Msg :=
  let summaries := results.filterMap MdFileResult.summary
  let payload := results.map MdFileResult.entry
  let allMeta := results.flatMap MdFileResult.meta
  let zipEntries := results.flatMap MdFileResult.written
  (if summaries.isEmpty then [] else [.text (joinSep "\n" summaries)]) ++
  (if payload.isEmpty then [] else
    [.json (.obj [("files", .obj payload), ("files_meta", .arr allMeta)])]) ++
  [.blob (.zip zipEntries)
    (.obj [("mime_type", .str "application/zip"), ("files", .arr allMeta)])]

/-- Full event trace of `ToMarkdownTool._invoke`: the per-file traces, then
the batch-level messages. -/
def invokeEvents (p : Params) : List Event :=
  match p.files with
  | none => [.emit (.text helpMsg)]
  | some files =>
    if files.isEmpty then [.emit (.text helpMsg)]
    else
      let results := files.map mdProcessFile
      (results.flatMap MdFileResult.events) ++ (tailMsgs results).map Event.emit

/-- Messages yielded by `ToMarkdownTool._invoke`. -/
def invokeMsgs (p : Params) : List Msg := msgsOf (invokeEvents p)

end ToMarkdown

/-! ## Auxiliary definitions for the claims -/

/-- Joining with an explicit count of inserted separator copies: the second
component is the number of copies of `sep` placed between the parts. -/
def joinCounted (sep : String) : List String → String × Nat
  | [] => ("", 0)
  | [a] => (a, 0)
  | a :: b :: rest =>
    let r := joinCounted sep (b :: rest)
    (a ++ sep ++ r.1, r.2 + 1)

/-- A file of a pymupdf.py batch that does not raise after its document was
opened: either its open fails (no handle is acquired), or its whole page
loop succeeds. -/
def pyCleanFile (b : Bool) (f : FileInput) : Bool :=
  match f.openResult with
  | .error _ => true
  | .ok d =>
    match Pymupdf.pyPages f.filename (replaceSpaces (stemOf f.filename)) b 0 d.pages with
    | .ok _ => true
    | .error _ => false

/-- Whether a message is a blob message. -/
def isBlobMsg : Msg → Bool
  | .blob _ _ => true
  | _ => false

/-- Whether a text-extraction outcome is a success. -/
def textOk (p : PageSpec) : Bool :=
  match p.getText with
  | .ok _ => true
  | .error _ => false

/-! ## Concrete inputs used by witnesses and counterexamples -/

/-- An image-free page with the given text. -/
def mkPage (t : String) : PageSpec := ⟨.ok t, []⟩

/-- A two-page document with no images. -/
def cDoc2 : DocSpec := ⟨[mkPage "Page one", mkPage "Page two"]⟩

/-- A file that opens as `cDoc2`. -/
def cGood : FileInput := ⟨"sample.pdf", .ok cDoc2, .ok ()⟩

/-- A second valid file, one page, no images. -/
def cGood2 : FileInput := ⟨"other.pdf", .ok ⟨[mkPage "hello"]⟩, .ok ()⟩

/-- A file whose byte buffer does not open as a PDF. -/
def cBad : FileInput := ⟨"bad.pdf", .error "cannot open broken document", .ok ()⟩

/-- A file whose first page raises in `get_text()`. -/
def cFailPage : FileInput := ⟨"crash.pdf", .ok ⟨[⟨.error "boom", []⟩]⟩, .ok ()⟩

/-- A PNG image that extracts and writes successfully. -/
def cImgPng : ImgSpec := ⟨.ok ⟨some "png", some [1, 2, 3]⟩, .ok [9, 9], .ok ()⟩

/-- An image tagged "JPEG" (uppercase) that extracts and writes successfully. -/
def cImgJpegUpper : ImgSpec := ⟨.ok ⟨some "JPEG", some [4, 5]⟩, .ok [8, 8], .ok ()⟩

/-- An image with the unsupported tag "bmp"; its PNG re-render yields
`[7, 7, 7]`. -/
def cImgBmp : ImgSpec := ⟨.ok ⟨some "bmp", some [6, 6]⟩, .ok [7, 7, 7], .ok ()⟩

/-- An image whose `extract_image` raises. -/
def cImgFail : ImgSpec := ⟨.error "xref damaged", .ok [], .ok ()⟩

/-- A one-page file with a good image, a failing image, and another good
image on its page. -/
def cMdImgFile : FileInput :=
  ⟨"mix.pdf", .ok ⟨[⟨.ok "body", [cImgPng, cImgFail, cImgBmp]⟩]⟩, .ok ()⟩

/-! ## Supporting lemmas -/

theorem msgsOf_append (a b : List Event) : msgsOf (a ++ b) = msgsOf a ++ msgsOf b := by
  simp [msgsOf]

theorem msgsOf_map_emit (ms : List Msg) : msgsOf (ms.map Event.emit) = ms := by
  induction ms with
  | nil => rfl
  | cons m ms ih => simpa [msgsOf] using ih

theorem msgsOf_flatMap {α : Type} (f : α → List Event) (xs : List α) :
    msgsOf (xs.flatMap f) = xs.flatMap (fun x => msgsOf (f x)) := by
  induction xs with
  | nil => rfl
  | cons x xs ih =>
    show msgsOf (f x ++ xs.flatMap f) = _
    rw [msgsOf_append, ih]
    rfl

theorem scopeState_append (a b : List Event) (s : Bool) :
    scopeState (a ++ b) s =
      match scopeState a s with
      | some t => scopeState b t
      | none => none := by
  induction a generalizing s with
  | nil => simp [scopeState]
  | cons e rest ih =>
    cases e with
    | openDoc => cases s <;> simp [scopeState, ih]
    | closeDoc => cases s <;> simp [scopeState, ih]
    | emit m => simp [scopeState, ih]

theorem scopeState_map_emit (ms : List Msg) (s : Bool) :
    scopeState (ms.map Event.emit) s = some s := by
  induction ms with
  | nil => rfl
  | cons m ms ih => simpa [scopeState] using ih

theorem scopeState_flatMap {α : Type} (f : α → List Event) (xs : List α)
    (h : ∀ x ∈ xs, scopeState (f x) false = some false) :
    scopeState (xs.flatMap f) false = some false := by
  induction xs with
  | nil => rfl
  | cons x xs ih =>
    show scopeState (f x ++ xs.flatMap f) false = some false
    rw [scopeState_append, h x (by simp)]
    exact ih (fun y hy => h y (by simp [hy]))

theorem toText_fileEvents_scoped (f : FileInput) :
    scopeState (ToText.fileEvents f) false = some false := by
  obtain ⟨name, openRes, wmd⟩ := f
  cases openRes with
  | error e => rfl
  | ok doc =>
    simp only [ToText.fileEvents]
    cases ToText.collectDocs name 0 doc.pages with
    | error e => rfl
    | ok docs => rfl

theorem toMarkdown_fileEvents_scoped (f : FileInput) :
    scopeState (ToMarkdown.mdProcessFile f).events false = some false := by
  obtain ⟨name, openRes, wmd⟩ := f
  cases openRes with
  | error e => rfl
  | ok doc =>
    simp only [ToMarkdown.mdProcessFile]
    cases ToMarkdown.mdPages name (stemOf (if name = "" then "document.pdf" else name))
        0 doc.pages with
    | error ew => rfl
    | ok acc =>
      cases wmd with
      | error we => rfl
      | ok u => rfl

theorem pymupdf_fileEvents_scoped (b : Bool) (f : FileInput)
    (h : pyCleanFile b f = true) :
    scopeState (Pymupdf.fileEvents b f) false = some false := by
  obtain ⟨name, openRes, wmd⟩ := f
  cases openRes with
  | error e => rfl
  | ok doc =>
    simp only [Pymupdf.fileEvents]
    simp only [pyCleanFile] at h
    cases hp : Pymupdf.pyPages name (replaceSpaces (stemOf name)) b 0 doc.pages with
    | error e => rw [hp] at h; exact absurd h (by simp)
    | ok res => rfl

theorem joinCounted_eq (sep : String) (l : List String) :
    joinCounted sep l = (joinSep sep l, l.length - 1) := by
  induction l with
  | nil => rfl
  | cons a rest ih =>
    cases rest with
    | nil => rfl
    | cons b t =>
      simp only [joinCounted, joinSep, ih, List.length_cons, Prod.mk.injEq]
      exact ⟨trivial, by omega⟩

/-! ## Claims -/

/-- C10: in `PymupdfTool._invoke`, for every input that passes
`ToolParameters` validation, `params.save_images` is a bool (the validated
field has type `Bool` in the embedding), so the `isinstance` check always
succeeds and the branch yielding "Invalid parameter: 'save_images' must be a
boolean." is unreachable: the tool behaves exactly as if the check were
removed. -/
theorem c10_save_images_check_unreachable :
    ∀ p : Pymupdf.Params,
      Pymupdf.invokeEvents p = Pymupdf.invokeEventsNoCheck p ∧
      Pymupdf.isBoolInstance p.saveImages = true := by
  intro p
  obtain ⟨files, b⟩ := p
  cases files with
  | none => exact ⟨rfl, rfl⟩
  | some fs => exact ⟨rfl, rfl⟩

/-- C7 counterexample: for `ToTextTool` an empty `files` list does not yield
the help message — it yields no message at all (only a missing/None `files`
parameter is caught; the loop over an empty list emits nothing), so the
output is not "exactly one text message". -/
theorem c7_cex :
    ToText.invokeMsgs ⟨some []⟩ = [] ∧ (ToText.invokeMsgs ⟨some []⟩).length ≠ 1 :=
  ⟨rfl, by decide⟩

/-- C7 amended: a missing `files` parameter yields exactly the single help
text message in all three tools, and an empty `files` list does so only in
`ToMarkdownTool`; `ToTextTool` and `PymupdfTool` yield no messages at all
for an empty list. -/
theorem c7_amended :
    ToText.invokeMsgs ⟨none⟩ = [Msg.text helpMsg] ∧
    ToMarkdown.invokeMsgs ⟨none⟩ = [Msg.text helpMsg] ∧
    (∀ b : Bool, Pymupdf.invokeMsgs ⟨none, b⟩ = [Msg.text helpMsg]) ∧
    ToMarkdown.invokeMsgs ⟨some []⟩ = [Msg.text helpMsg] ∧
    ToText.invokeMsgs ⟨some []⟩ = [] ∧
    (∀ b : Bool, Pymupdf.invokeMsgs ⟨some [], b⟩ = []) :=
  ⟨rfl, rfl, fun _ => rfl, rfl, rfl, fun _ => rfl⟩

/-- C8 counterexample: in `PymupdfTool` the document handle is not released
on the error path — `doc.close()` (pymupdf.py line 115) sits inside the
`try` with no `finally`, so a file whose page processing raises (here:
`get_text()` raising "boom") ends the batch with the handle still open
(final scope state `some true`). -/
theorem c8_cex :
    ¬ wellScoped (Pymupdf.invokeEvents ⟨some [cFailPage], true⟩) ∧
    scopeState (Pymupdf.invokeEvents ⟨some [cFailPage], true⟩) false = some true :=
  ⟨by unfold wellScoped; decide, rfl⟩

/-- C8 amended: `ToTextTool` (try/finally) and `ToMarkdownTool` (finally
with suppressed close errors) release the document handle on every exit
path of every file, for all inputs; `PymupdfTool` releases it only for
files that either fail to open (no handle is acquired) or whose whole page
loop succeeds — an exception inside its page loop leaks the handle. -/
theorem c8_amended :
    (∀ p : ToText.Params, wellScoped (ToText.invokeEvents p)) ∧
    (∀ p : ToMarkdown.Params, wellScoped (ToMarkdown.invokeEvents p)) ∧
    (∀ (files : List FileInput) (b : Bool),
      (∀ f ∈ files, pyCleanFile b f = true) →
      wellScoped (Pymupdf.invokeEvents ⟨some files, b⟩)) := by
  refine ⟨?_, ?_, ?_⟩
  · intro p
    obtain ⟨files⟩ := p
    cases files with
    | none => rfl
    | some fs =>
      show scopeState (fs.flatMap ToText.fileEvents) false = some false
      exact scopeState_flatMap _ fs (fun f _ => toText_fileEvents_scoped f)
  · intro p
    obtain ⟨files⟩ := p
    cases files with
    | none => rfl
    | some fs =>
      cases fs with
      | nil => rfl
      | cons g gs =>
        show scopeState
          (((g :: gs).map ToMarkdown.mdProcessFile).flatMap ToMarkdown.MdFileResult.events ++
            (ToMarkdown.tailMsgs ((g :: gs).map ToMarkdown.mdProcessFile)).map Event.emit)
          false = some false
        rw [scopeState_append, List.flatMap_map,
          scopeState_flatMap _ (g :: gs) (fun f _ => toMarkdown_fileEvents_scoped f)]
        exact scopeState_map_emit _ false
  · intro files b h
    show scopeState (files.flatMap (Pymupdf.fileEvents b)) false = some false
    exact scopeState_flatMap _ files (fun f hf => pymupdf_fileEvents_scoped b f (h f hf))

/-- C8 witness: the amended statement at a concrete batch of one valid and
one unopenable file, for all three tools. -/
theorem c8_witness :
    wellScoped (ToText.invokeEvents ⟨some [cGood, cBad]⟩) ∧
    wellScoped (ToMarkdown.invokeEvents ⟨some [cGood, cBad]⟩) ∧
    (∀ f ∈ [cGood, cBad], pyCleanFile true f = true) ∧
    wellScoped (Pymupdf.invokeEvents ⟨some [cGood, cBad], true⟩) :=
  ⟨c8_amended.1 ⟨some [cGood, cBad]⟩, c8_amended.2.1 ⟨some [cGood, cBad]⟩,
   by decide, c8_amended.2.2 [cGood, cBad] true (by decide)⟩

/-- C3: a file whose buffer fails to open yields a per-file error text
message and the JSON entry `{filename: {"error": str(exc)}}`, and the batch
continues: each tool's output decomposes file-by-file (each file's messages
and payload entry are a function of that file alone), so every other valid
file still produces its normal successful output; for `ToMarkdownTool` the
error text is emitted inline and the error entry appears in the aggregated
JSON payload built from every file's own entry. -/
theorem c3_error_isolation :
    (∀ files : List FileInput,
      ToText.invokeMsgs ⟨some files⟩ =
        files.flatMap (fun f => msgsOf (ToText.fileEvents f))) ∧
    (∀ (f : FileInput) (e : String), f.openResult = .error e →
      msgsOf (ToText.fileEvents f) =
        [Msg.text ("Error processing " ++ f.filename ++ ": " ++ e),
         Msg.json (ToText.errJson f.filename e)]) ∧
    (∀ (b : Bool) (files : List FileInput),
      Pymupdf.invokeMsgs ⟨some files, b⟩ =
        files.flatMap (fun f => msgsOf (Pymupdf.fileEvents b f))) ∧
    (∀ (b : Bool) (f : FileInput) (e : String), f.openResult = .error e →
      msgsOf (Pymupdf.fileEvents b f) =
        [Msg.text ("Error processing " ++ f.filename ++ ": " ++ e),
         Msg.json (Pymupdf.errJson f.filename e)]) ∧
    (∀ (g : FileInput) (gs : List FileInput),
      ToMarkdown.invokeMsgs ⟨some (g :: gs)⟩ =
        (g :: gs).flatMap (fun f => msgsOf (ToMarkdown.mdProcessFile f).events) ++
          ToMarkdown.tailMsgs ((g :: gs).map ToMarkdown.mdProcessFile)) ∧
    (∀ (f : FileInput) (e : String), f.openResult = .error e →
      (ToMarkdown.mdProcessFile f).events =
        [Event.emit (Msg.text ("Error opening " ++ ToMarkdown.displayName f ++ ": " ++ e))] ∧
      (ToMarkdown.mdProcessFile f).entry =
        (ToMarkdown.jsonKey f (stemOf (if f.filename = "" then "document.pdf" else f.filename)),
         JVal.obj [("error", JVal.str e)])) := by
  refine ⟨?_, ?_, ?_, ?_, ?_, ?_⟩
  · intro files
    show msgsOf (files.flatMap ToText.fileEvents) = _
    exact msgsOf_flatMap _ files
  · intro f e h
    simp only [ToText.fileEvents, h, msgsOf, List.filterMap_cons, List.filterMap_nil]
  · intro b files
    show msgsOf (files.flatMap (Pymupdf.fileEvents b)) = _
    exact msgsOf_flatMap _ files
  · intro b f e h
    simp only [Pymupdf.fileEvents, h, msgsOf, List.filterMap_cons, List.filterMap_nil]
  · intro g gs
    show msgsOf (((g :: gs).map ToMarkdown.mdProcessFile).flatMap ToMarkdown.MdFileResult.events ++
      (ToMarkdown.tailMsgs ((g :: gs).map ToMarkdown.mdProcessFile)).map Event.emit) = _
    rw [msgsOf_append, msgsOf_map_emit, List.flatMap_map, msgsOf_flatMap]
  · intro f e h
    simp [ToMarkdown.mdProcessFile, h]

/-- C3 witness: the statement at a concrete batch of one unopenable file and
one valid file. -/
theorem c3_witness :
    msgsOf (ToText.fileEvents cBad) =
      [Msg.text "Error processing bad.pdf: cannot open broken document",
       Msg.json (ToText.errJson "bad.pdf" "cannot open broken document")] ∧
    ToText.invokeMsgs ⟨some [cBad, cGood]⟩ =
      [cBad, cGood].flatMap (fun f => msgsOf (ToText.fileEvents f)) ∧
    msgsOf (Pymupdf.fileEvents true cBad) =
      [Msg.text "Error processing bad.pdf: cannot open broken document",
       Msg.json (Pymupdf.errJson "bad.pdf" "cannot open broken document")] ∧
    (ToMarkdown.mdProcessFile cBad).entry =
      ("bad.pdf", JVal.obj [("error", JVal.str "cannot open broken document")]) := by
  obtain ⟨h1, h2, h3, h4, h5, h6⟩ := c3_error_isolation
  exact ⟨h2 cBad "cannot open broken document" rfl,
         h1 [cBad, cGood],
         h4 true cBad "cannot open broken document" rfl,
         (h6 cBad "cannot open broken document" rfl).2⟩

theorem toText_fileMsgs_success (f : FileInput) (doc : DocSpec)
    (docs : List ToText.PageRecord)
    (h1 : f.openResult = .ok doc)
    (h2 : ToText.collectDocs f.filename 0 doc.pages = .ok docs) :
    msgsOf (ToText.fileEvents f) =
      [Msg.text (joinSep pageBreakSep (docs.map ToText.PageRecord.text)),
       Msg.json (.obj [(f.filename, .arr (docs.map ToText.pageRecordJson))]),
       Msg.blob (.bytes (strEncode (joinSep pageBreakSep (docs.map ToText.PageRecord.text))))
         (.obj [("mime_type", .str "text/plain")])] := by
  simp only [ToText.fileEvents, h1, h2, msgsOf, List.filterMap_cons, List.filterMap_nil]

theorem pymupdf_fileMsgs_success (b : Bool) (f : FileInput) (doc : DocSpec)
    (docs : List Pymupdf.PyRecord) (mdParts : List String)
    (h1 : f.openResult = .ok doc)
    (h2 : Pymupdf.pyPages f.filename (replaceSpaces (stemOf f.filename)) b 0 doc.pages =
      .ok (docs, mdParts)) :
    msgsOf (Pymupdf.fileEvents b f) =
      [Msg.text (joinSep "\n\n" (("# " ++ f.filename) ::
         ("Total pages: " ++ toString doc.pages.length) :: mdParts)),
       Msg.json (.obj [(f.filename, .arr (docs.map Pymupdf.pyRecordJson))]),
       Msg.blob (.bytes (strEncode (joinSep pageBreakSep (docs.map Pymupdf.PyRecord.text))))
         (.obj [("mime_type", .str "text/plain")])] := by
  simp only [Pymupdf.fileEvents, h1, h2, msgsOf, List.filterMap_cons, List.filterMap_nil]

theorem toMarkdown_fileMsgs_no_blob (f : FileInput) :
    (msgsOf (ToMarkdown.mdProcessFile f).events).filter isBlobMsg = [] := by
  obtain ⟨name, openRes, wmd⟩ := f
  cases openRes with
  | error e => rfl
  | ok doc =>
    simp only [ToMarkdown.mdProcessFile]
    cases ToMarkdown.mdPages name (stemOf (if name = "" then "document.pdf" else name))
        0 doc.pages with
    | error ew => rfl
    | ok acc =>
      cases wmd with
      | error we => rfl
      | ok u => rfl

theorem toMarkdown_tail_one_blob (rs : List ToMarkdown.MdFileResult) :
    ((ToMarkdown.tailMsgs rs).filter isBlobMsg).length = 1 := by
  simp only [ToMarkdown.tailMsgs]
  cases h1 : (rs.filterMap ToMarkdown.MdFileResult.summary).isEmpty <;>
  cases h2 : (rs.map ToMarkdown.MdFileResult.entry).isEmpty <;>
    simp only [Bool.false_eq_true, if_false, if_true, List.nil_append,
      List.filter_append, List.filter_cons, List.filter_nil, isBlobMsg,
      List.length_append, List.length_cons, List.length_nil, List.cons_append]

/-- C9 counterexample: `ToMarkdownTool` does not emit three outputs per
file — a batch of two successfully processed files (both get a summary
line) yields three messages in total (one summary text, one JSON, one zip
blob), not six. -/
theorem c9_cex :
    (([cGood, cGood2].map ToMarkdown.mdProcessFile).filterMap
      ToMarkdown.MdFileResult.summary).length = 2 ∧
    (ToMarkdown.invokeMsgs ⟨some [cGood, cGood2]⟩).length = 3 ∧
    (ToMarkdown.invokeMsgs ⟨some [cGood, cGood2]⟩).length ≠ 6 :=
  ⟨rfl, rfl, by decide⟩

/-- C9 amended: `ToTextTool` and `PymupdfTool` emit exactly three ordered
outputs per successfully processed file — text, then JSON keyed by the
filename, then blob; `ToMarkdownTool` instead emits per-file error texts
inline and then batch-level messages containing exactly one blob (the zip)
for the whole batch. -/
theorem c9_amended :
    (∀ (f : FileInput) (doc : DocSpec) (docs : List ToText.PageRecord),
      f.openResult = .ok doc →
      ToText.collectDocs f.filename 0 doc.pages = .ok docs →
      msgsOf (ToText.fileEvents f) =
        [Msg.text (joinSep pageBreakSep (docs.map ToText.PageRecord.text)),
         Msg.json (.obj [(f.filename, .arr (docs.map ToText.pageRecordJson))]),
         Msg.blob (.bytes (strEncode (joinSep pageBreakSep (docs.map ToText.PageRecord.text))))
           (.obj [("mime_type", .str "text/plain")])]) ∧
    (∀ (b : Bool) (f : FileInput) (doc : DocSpec) (docs : List Pymupdf.PyRecord)
        (mdParts : List String),
      f.openResult = .ok doc →
      Pymupdf.pyPages f.filename (replaceSpaces (stemOf f.filename)) b 0 doc.pages =
        .ok (docs, mdParts) →
      msgsOf (Pymupdf.fileEvents b f) =
        [Msg.text (joinSep "\n\n" (("# " ++ f.filename) ::
           ("Total pages: " ++ toString doc.pages.length) :: mdParts)),
         Msg.json (.obj [(f.filename, .arr (docs.map Pymupdf.pyRecordJson))]),
         Msg.blob (.bytes (strEncode (joinSep pageBreakSep (docs.map Pymupdf.PyRecord.text))))
           (.obj [("mime_type", .str "text/plain")])]) ∧
    (∀ (g : FileInput) (gs : List FileInput),
      ToMarkdown.invokeMsgs ⟨some (g :: gs)⟩ =
        (g :: gs).flatMap (fun f => msgsOf (ToMarkdown.mdProcessFile f).events) ++
          ToMarkdown.tailMsgs ((g :: gs).map ToMarkdown.mdProcessFile)) ∧
    (∀ f : FileInput, (msgsOf (ToMarkdown.mdProcessFile f).events).filter isBlobMsg = []) ∧
    (∀ rs : List ToMarkdown.MdFileResult, ((ToMarkdown.tailMsgs rs).filter isBlobMsg).length = 1) := by
  refine ⟨toText_fileMsgs_success, pymupdf_fileMsgs_success, ?_,
    toMarkdown_fileMsgs_no_blob, toMarkdown_tail_one_blob⟩
  intro g gs
  show msgsOf (((g :: gs).map ToMarkdown.mdProcessFile).flatMap ToMarkdown.MdFileResult.events ++
    (ToMarkdown.tailMsgs ((g :: gs).map ToMarkdown.mdProcessFile)).map Event.emit) = _
  rw [msgsOf_append, msgsOf_map_emit, List.flatMap_map, msgsOf_flatMap]

/-- C9 witness: the amended statement at concrete inputs. -/
theorem c9_witness :
    msgsOf (ToText.fileEvents cGood) =
      [Msg.text (joinSep pageBreakSep
         (([⟨"Page one", 1, "sample.pdf"⟩, ⟨"Page two", 2, "sample.pdf"⟩] :
            List ToText.PageRecord).map ToText.PageRecord.text)),
       Msg.json (.obj [("sample.pdf", .arr
         (([⟨"Page one", 1, "sample.pdf"⟩, ⟨"Page two", 2, "sample.pdf"⟩] :
            List ToText.PageRecord).map ToText.pageRecordJson))]),
       Msg.blob (.bytes (strEncode (joinSep pageBreakSep
         (([⟨"Page one", 1, "sample.pdf"⟩, ⟨"Page two", 2, "sample.pdf"⟩] :
            List ToText.PageRecord).map ToText.PageRecord.text))))
         (.obj [("mime_type", .str "text/plain")])] ∧
    msgsOf (Pymupdf.fileEvents true cGood) =
      [Msg.text (joinSep "\n\n" ("# sample.pdf" :: ("Total pages: " ++ toString cDoc2.pages.length) ::
         ["\n## Page 1", "Page one", "\n## Page 2", "Page two"])),
       Msg.json (.obj [("sample.pdf", .arr
         (([⟨"Page one", 1, "sample.pdf", []⟩, ⟨"Page two", 2, "sample.pdf", []⟩] :
            List Pymupdf.PyRecord).map Pymupdf.pyRecordJson))]),
       Msg.blob (.bytes (strEncode (joinSep pageBreakSep
         (([⟨"Page one", 1, "sample.pdf", []⟩, ⟨"Page two", 2, "sample.pdf", []⟩] :
            List Pymupdf.PyRecord).map Pymupdf.PyRecord.text))))
         (.obj [("mime_type", .str "text/plain")])] ∧
    ((ToMarkdown.tailMsgs ([cGood].map ToMarkdown.mdProcessFile)).filter isBlobMsg).length = 1 :=
  ⟨c9_amended.1 cGood cDoc2 _ rfl rfl,
   c9_amended.2.1 true cGood cDoc2 _ _ rfl rfl,
   c9_amended.2.2.2.2 _⟩

theorem toText_collectDocs_length (fname : String) :
    ∀ (n : Nat) (ps : List PageSpec) (docs : List ToText.PageRecord),
      ToText.collectDocs fname n ps = .ok docs → docs.length = ps.length := by
  intro n ps
  induction ps generalizing n with
  | nil =>
    intro docs h
    simp only [ToText.collectDocs] at h
    injection h with h
    subst h
    rfl
  | cons p rest ih =>
    intro docs h
    simp only [ToText.collectDocs] at h
    cases hp : p.getText with
    | error e => simp only [hp] at h; exact Except.noConfusion h
    | ok t =>
      simp only [hp] at h
      cases hr : ToText.collectDocs fname (n + 1) rest with
      | error e => simp only [hr] at h; exact Except.noConfusion h
      | ok ds =>
        simp only [hr] at h
        injection h with h
        subst h
        simp [ih (n + 1) ds hr]

/-- C1 counterexample: for `PymupdfTool` (cited at pymupdf.py lines
117-121) the page-break join is not what the text message carries — on a
two-page document the emitted text message is the Markdown rendering and
contains zero occurrences of the separator, not N-1 = 1. -/
theorem c1_cex :
    firstText (Pymupdf.invokeMsgs ⟨some [cGood], true⟩) =
      some "# sample.pdf\n\nTotal pages: 2\n\n\n## Page 1\n\nPage one\n\n\n## Page 2\n\nPage two" ∧
    countOcc pageBreakSep
      "# sample.pdf\n\nTotal pages: 2\n\n\n## Page 1\n\nPage one\n\n\n## Page 2\n\nPage two" = 0 ∧
    (0 : Nat) ≠ 2 - 1 :=
  ⟨rfl, by decide, by decide⟩

/-- C1 amended: for `ToTextTool` the emitted text message is the page texts
joined with exactly N-1 inserted copies of the literal separator
`"\n\n---PAGE BREAK---\n\n"` (made explicit by `joinCounted`, whose second
component counts the inserted copies and equals N-1); for `PymupdfTool`
that same join is carried by the blob message, while its text message is a
Markdown rendering. -/
theorem c1_amended :
    (∀ (f : FileInput) (doc : DocSpec) (docs : List ToText.PageRecord),
      f.openResult = .ok doc →
      ToText.collectDocs f.filename 0 doc.pages = .ok docs →
      firstText (msgsOf (ToText.fileEvents f)) =
        some (joinCounted pageBreakSep (docs.map ToText.PageRecord.text)).1 ∧
      (joinCounted pageBreakSep (docs.map ToText.PageRecord.text)).2 = docs.length - 1 ∧
      docs.length = doc.pages.length) ∧
    (∀ (b : Bool) (f : FileInput) (doc : DocSpec) (docs : List Pymupdf.PyRecord)
        (mdParts : List String),
      f.openResult = .ok doc →
      Pymupdf.pyPages f.filename (replaceSpaces (stemOf f.filename)) b 0 doc.pages =
        .ok (docs, mdParts) →
      firstBlobBytes (msgsOf (Pymupdf.fileEvents b f)) =
        some (strEncode (joinCounted pageBreakSep (docs.map Pymupdf.PyRecord.text)).1)) := by
  constructor
  · intro f doc docs h1 h2
    rw [toText_fileMsgs_success f doc docs h1 h2]
    refine ⟨?_, ?_, ?_⟩
    · rw [joinCounted_eq]
      rfl
    · rw [joinCounted_eq]
      simp
    · simpa using toText_collectDocs_length f.filename 0 doc.pages docs h2
  · intro b f doc docs mdParts h1 h2
    rw [pymupdf_fileMsgs_success b f doc docs mdParts h1 h2, joinCounted_eq]
    rfl

/-- C1 witness: the amended statement at a concrete two-page file. -/
theorem c1_witness :
    firstText (msgsOf (ToText.fileEvents cGood)) =
      some (joinCounted pageBreakSep
        (([⟨"Page one", 1, "sample.pdf"⟩, ⟨"Page two", 2, "sample.pdf"⟩] :
           List ToText.PageRecord).map ToText.PageRecord.text)).1 ∧
    (joinCounted pageBreakSep
      (([⟨"Page one", 1, "sample.pdf"⟩, ⟨"Page two", 2, "sample.pdf"⟩] :
         List ToText.PageRecord).map ToText.PageRecord.text)).2 = 2 - 1 ∧
    firstBlobBytes (msgsOf (Pymupdf.fileEvents true cGood)) =
      some (strEncode (joinCounted pageBreakSep
        (([⟨"Page one", 1, "sample.pdf", []⟩, ⟨"Page two", 2, "sample.pdf", []⟩] :
           List Pymupdf.PyRecord).map Pymupdf.PyRecord.text)).1) :=
  ⟨(c1_amended.1 cGood cDoc2 _ rfl rfl).1,
   (c1_amended.1 cGood cDoc2 _ rfl rfl).2.1,
   c1_amended.2 true cGood cDoc2 _ _ rfl rfl⟩

/-- C2 counterexample: for `PymupdfTool` the blob bytes are not the UTF-8
encoding of the text message — on a one-page document the text message is
the Markdown rendering while the blob holds only the page text. -/
theorem c2_cex :
    firstText (Pymupdf.invokeMsgs ⟨some [cGood2], true⟩) =
      some "# other.pdf\n\nTotal pages: 1\n\n\n## Page 1\n\nhello" ∧
    firstBlobBytes (Pymupdf.invokeMsgs ⟨some [cGood2], true⟩) = some (strEncode "hello") ∧
    firstBlobBytes (Pymupdf.invokeMsgs ⟨some [cGood2], true⟩) ≠
      (firstText (Pymupdf.invokeMsgs ⟨some [cGood2], true⟩)).map strEncode :=
  ⟨rfl, rfl, by decide⟩

/-- C2 amended: for `ToTextTool` the blob bytes equal the UTF-8 encoding of
the text message's content (round-trip); for `PymupdfTool` the blob bytes
are the UTF-8 encoding of the page-break join of the page texts, while the
text message is the Markdown rendering, which need not coincide. -/
theorem c2_amended :
    (∀ (f : FileInput) (doc : DocSpec) (docs : List ToText.PageRecord),
      f.openResult = .ok doc →
      ToText.collectDocs f.filename 0 doc.pages = .ok docs →
      firstBlobBytes (msgsOf (ToText.fileEvents f)) =
        (firstText (msgsOf (ToText.fileEvents f))).map strEncode) ∧
    (∀ (b : Bool) (f : FileInput) (doc : DocSpec) (docs : List Pymupdf.PyRecord)
        (mdParts : List String),
      f.openResult = .ok doc →
      Pymupdf.pyPages f.filename (replaceSpaces (stemOf f.filename)) b 0 doc.pages =
        .ok (docs, mdParts) →
      firstBlobBytes (msgsOf (Pymupdf.fileEvents b f)) =
        some (strEncode (joinSep pageBreakSep (docs.map Pymupdf.PyRecord.text))) ∧
      firstText (msgsOf (Pymupdf.fileEvents b f)) =
        some (joinSep "\n\n" (("# " ++ f.filename) ::
          ("Total pages: " ++ toString doc.pages.length) :: mdParts))) := by
  constructor
  · intro f doc docs h1 h2
    rw [toText_fileMsgs_success f doc docs h1 h2]
    rfl
  · intro b f doc docs mdParts h1 h2
    rw [pymupdf_fileMsgs_success b f doc docs mdParts h1 h2]
    exact ⟨rfl, rfl⟩

/-- C2 witness: the amended statement at a concrete two-page file. -/
theorem c2_witness :
    firstBlobBytes (msgsOf (ToText.fileEvents cGood)) =
      (firstText (msgsOf (ToText.fileEvents cGood))).map strEncode ∧
    firstBlobBytes (msgsOf (Pymupdf.fileEvents true cGood)) =
      some (strEncode (joinSep pageBreakSep
        (([⟨"Page one", 1, "sample.pdf", []⟩, ⟨"Page two", 2, "sample.pdf", []⟩] :
           List Pymupdf.PyRecord).map Pymupdf.PyRecord.text))) :=
  ⟨c2_amended.1 cGood cDoc2 _ rfl rfl,
   (c2_amended.2 true cGood cDoc2 _ _ rfl rfl).1⟩

theorem imgAcc_append_assoc (a b c : ToMarkdown.ImgAcc) :
    ToMarkdown.ImgAcc.append (ToMarkdown.ImgAcc.append a b) c =
      ToMarkdown.ImgAcc.append a (ToMarkdown.ImgAcc.append b c) := by
  obtain ⟨a1, a2, a3, a4⟩ := a
  obtain ⟨b1, b2, b3, b4⟩ := b
  obtain ⟨c1, c2, c3, c4⟩ := c
  simp [ToMarkdown.ImgAcc.append]

theorem pagesAcc_append_assoc (a b c : ToMarkdown.PagesAcc) :
    ToMarkdown.PagesAcc.append (ToMarkdown.PagesAcc.append a b) c =
      ToMarkdown.PagesAcc.append a (ToMarkdown.PagesAcc.append b c) := by
  obtain ⟨a1, a2, a3, a4, a5⟩ := a
  obtain ⟨b1, b2, b3, b4, b5⟩ := b
  obtain ⟨c1, c2, c3, c4, c5⟩ := c
  simp [ToMarkdown.PagesAcc.append]

theorem mdImgs_append (fname base : String) (p : Nat) :
    ∀ (i0 : Nat) (l1 l2 : List ImgSpec),
      ToMarkdown.mdImgs fname base p i0 (l1 ++ l2) =
        ToMarkdown.ImgAcc.append (ToMarkdown.mdImgs fname base p i0 l1)
          (ToMarkdown.mdImgs fname base p (i0 + l1.length) l2) := by
  intro i0 l1
  induction l1 generalizing i0 with
  | nil =>
    intro l2
    simp only [List.nil_append, List.length_nil, Nat.add_zero]
    show ToMarkdown.mdImgs fname base p i0 l2 =
      ToMarkdown.ImgAcc.append ⟨[], [], [], []⟩ (ToMarkdown.mdImgs fname base p i0 l2)
    simp [ToMarkdown.ImgAcc.append]
  | cons x l1 ih =>
    intro l2
    show ToMarkdown.ImgAcc.append _ (ToMarkdown.mdImgs fname base p (i0 + 1) (l1 ++ l2)) = _
    rw [ih (i0 + 1) l2, ← imgAcc_append_assoc]
    have : i0 + 1 + l1.length = i0 + (x :: l1).length := by simp; omega
    rw [this]
    rfl

theorem mdPages_append (fname base : String) :
    ∀ (i : Nat) (l1 l2 : List PageSpec) (a1 a2 : ToMarkdown.PagesAcc),
      ToMarkdown.mdPages fname base i l1 = .ok a1 →
      ToMarkdown.mdPages fname base (i + l1.length) l2 = .ok a2 →
      ToMarkdown.mdPages fname base i (l1 ++ l2) = .ok (ToMarkdown.PagesAcc.append a1 a2) := by
  intro i l1
  induction l1 generalizing i with
  | nil =>
    intro l2 a1 a2 h1 h2
    simp only [ToMarkdown.mdPages] at h1
    injection h1 with h1
    subst h1
    simp only [List.length_nil, Nat.add_zero] at h2
    rw [List.nil_append, h2]
    obtain ⟨b1, b2, b3, b4, b5⟩ := a2
    simp [ToMarkdown.PagesAcc.append]
  | cons q l1 ih =>
    intro l2 a1 a2 h1 h2
    simp only [ToMarkdown.mdPages] at h1
    cases hq : q.getText with
    | error e => simp only [hq] at h1; exact Except.noConfusion h1
    | ok t =>
      simp only [hq] at h1
      cases hr : ToMarkdown.mdPages fname base (i + 1) l1 with
      | error ew => simp only [hr] at h1; exact Except.noConfusion h1
      | ok b1 =>
        simp only [hr] at h1
        injection h1 with h1
        subst h1
        have hlen : i + (q :: l1).length = i + 1 + l1.length := by simp; omega
        rw [hlen] at h2
        have hmain := ih (i + 1) l2 b1 a2 hr h2
        rw [List.cons_append]
        simp only [ToMarkdown.mdPages, hq, hmain]
        rw [pagesAcc_append_assoc]

theorem mdPages_all_ok (fname base : String) :
    ∀ (ps : List PageSpec) (i : Nat), (∀ p ∈ ps, textOk p = true) →
      ∃ acc, ToMarkdown.mdPages fname base i ps = .ok acc := by
  intro ps
  induction ps with
  | nil => exact fun i _ => ⟨⟨[], [], [], [], []⟩, rfl⟩
  | cons q ps ih =>
    intro i h
    cases hqt : q.getText with
    | error e =>
      have hq := h q (by simp)
      simp [textOk, hqt] at hq
    | ok t =>
      obtain ⟨acc, hacc⟩ := ih (i + 1) (fun p hp => h p (by simp [hp]))
      exact ⟨ToMarkdown.PagesAcc.append (ToMarkdown.mdPageOut fname base i t q.images) acc,
        by simp only [ToMarkdown.mdPages, hqt, hacc]⟩

/-- C4: an embedded image whose extraction, decoding, or write fails is
non-fatal for `ToMarkdownTool`: (1) the image loop decomposes around the
failing image, which contributes exactly its error-list entry and nothing
else (no Markdown line, no record, no written file), while the images
before and after contribute exactly what they contribute in isolation; (2)
the page entry carries the page's extracted text and its heading and text
lines unchanged, whatever the image outcomes; (3) the page loop decomposes
over pages, so the remaining pages are still processed; (4) a file whose
page texts all extract successfully always reaches the success path, with
any image failures only recorded; (5) such a file is still summarised and
its document opened and closed normally. -/
theorem c4_image_failure_isolation :
    (∀ (fname base : String) (p i0 : Nat) (pre post : List ImgSpec) (img : ImgSpec)
        (m : String),
      ToMarkdown.mdImgStep fname base p (i0 + pre.length) img = .err m →
      ToMarkdown.mdImgs fname base p i0 (pre ++ img :: post) =
        ToMarkdown.ImgAcc.append (ToMarkdown.mdImgs fname base p i0 pre)
          (ToMarkdown.ImgAcc.append ⟨[], [], [m], []⟩
            (ToMarkdown.mdImgs fname base p (i0 + pre.length + 1) post))) ∧
    (∀ (fname base : String) (i : Nat) (t : String) (imgs : List ImgSpec),
      (ToMarkdown.mdPageOut fname base i t imgs).entries =
        [JVal.obj [("page", JVal.num (i + 1)), ("text", JVal.str t),
                   ("images", JVal.arr (ToMarkdown.mdImgs fname base (i + 1) 0 imgs).infos)]] ∧
      (ToMarkdown.mdPageOut fname base i t imgs).mdLines =
        ("## Page " ++ toString (i + 1)) :: (if t = "" then "" else pyStrip t) ::
          (ToMarkdown.mdImgs fname base (i + 1) 0 imgs).mdLines) ∧
    (∀ (fname base : String) (i : Nat) (l1 l2 : List PageSpec)
        (a1 a2 : ToMarkdown.PagesAcc),
      ToMarkdown.mdPages fname base i l1 = .ok a1 →
      ToMarkdown.mdPages fname base (i + l1.length) l2 = .ok a2 →
      ToMarkdown.mdPages fname base i (l1 ++ l2) = .ok (ToMarkdown.PagesAcc.append a1 a2)) ∧
    (∀ (fname base : String) (ps : List PageSpec) (i : Nat),
      (∀ p ∈ ps, textOk p = true) →
      ∃ acc, ToMarkdown.mdPages fname base i ps = .ok acc) ∧
    (∀ (f : FileInput) (doc : DocSpec),
      f.openResult = .ok doc → (∀ p ∈ doc.pages, textOk p = true) →
      (ToMarkdown.mdProcessFile f).summary.isSome = true ∧
      (ToMarkdown.mdProcessFile f).events = [Event.openDoc, Event.closeDoc]) := by
  refine ⟨?_, ?_, mdPages_append, mdPages_all_ok, ?_⟩
  · intro fname base p i0 pre post img m h
    rw [mdImgs_append fname base p i0 pre (img :: post)]
    simp only [ToMarkdown.mdImgs, h, ToMarkdown.mdImgContrib]
  · intro fname base i t imgs
    exact ⟨rfl, rfl⟩
  · intro f doc h1 hall
    obtain ⟨name, openRes, wmd⟩ := f
    cases openRes with
    | error e => simp at h1
    | ok d =>
      have hd : d = doc := by injection h1
      subst hd
      obtain ⟨acc, hacc⟩ := mdPages_all_ok name
        (stemOf (if name = "" then "document.pdf" else name)) d.pages 0 hall
      simp only [ToMarkdown.mdProcessFile, hacc]
      cases wmd with
      | error we => exact ⟨rfl, rfl⟩
      | ok u => exact ⟨rfl, rfl⟩

/-- C4 witness: the statement at a concrete page holding a good image, an
image whose extraction raises, and another good image. -/
theorem c4_witness :
    ToMarkdown.mdImgStep "mix.pdf" "mix" 1 1 cImgFail =
      .err "Failed to save image 2 on page 1 for mix.pdf: xref damaged" ∧
    ToMarkdown.mdImgs "mix.pdf" "mix" 1 0 [cImgPng, cImgFail, cImgBmp] =
      ToMarkdown.ImgAcc.append (ToMarkdown.mdImgs "mix.pdf" "mix" 1 0 [cImgPng])
        (ToMarkdown.ImgAcc.append
          ⟨[], [], ["Failed to save image 2 on page 1 for mix.pdf: xref damaged"], []⟩
          (ToMarkdown.mdImgs "mix.pdf" "mix" 1 2 [cImgBmp])) ∧
    (ToMarkdown.mdProcessFile cMdImgFile).summary.isSome = true ∧
    (ToMarkdown.mdProcessFile cMdImgFile).events = [Event.openDoc, Event.closeDoc] :=
  ⟨rfl,
   c4_image_failure_isolation.1 "mix.pdf" "mix" 1 0 [cImgPng] [cImgBmp] cImgFail
     "Failed to save image 2 on page 1 for mix.pdf: xref damaged" rfl,
   (c4_image_failure_isolation.2.2.2.2 cMdImgFile
     ⟨[⟨.ok "body", [cImgPng, cImgFail, cImgBmp]⟩]⟩ rfl (by decide)).1,
   (c4_image_failure_isolation.2.2.2.2 cMdImgFile
     ⟨[⟨.ok "body", [cImgPng, cImgFail, cImgBmp]⟩]⟩ rfl (by decide)).2⟩

/-- C5: for an extracted image whose lowercased format tag is in the
supported set {png, jpg, jpeg} (the code's spelling of {PNG, JPEG}), the raw
encoded bytes pass through unchanged and the reported media type is the
original format's (`image/png` for png, `image/jpeg` for jpg/jpeg);
otherwise the image is re-rendered to PNG via the pixel-level
`Pixmap(...).tobytes("png")` decode/re-encode and reported as `image/png`. -/
theorem c5_format_normalization :
    ∀ (fname base : String) (p i0 : Nat) (img : ImgSpec) (info : ExtractedImage)
      (t : String),
      img.extract = .ok info → info.ext = some t → t ≠ "" →
      ((toLowerPy t ∈ ["png", "jpg", "jpeg"] →
        ∀ bs : Bytes, info.image = some bs → img.write = .ok () →
        ToMarkdown.mdImgStep fname base p i0 img =
          .keep ⟨"![Page " ++ toString p ++ " Image " ++ toString (i0 + 1) ++ "](" ++
                   ToMarkdown.mdRelPath p (i0 + 1) (toLowerPy t) ++ ")",
                 .obj [("page", .num p), ("index", .num (i0 + 1)),
                       ("path", .str (base ++ "/" ++ ToMarkdown.mdRelPath p (i0 + 1) (toLowerPy t))),
                       ("filename", .str ("page-" ++ toString p ++ "-image-" ++
                          toString (i0 + 1) ++ "." ++ toLowerPy t)),
                       ("mime_type", .str (if toLowerPy t = "png" then "image/png" else "image/jpeg"))],
                 (base ++ "/" ++ ToMarkdown.mdRelPath p (i0 + 1) (toLowerPy t), bs)⟩) ∧
       (toLowerPy t ∉ ["png", "jpg", "jpeg"] →
        ∀ pbs : Bytes, img.pixmapPng = .ok pbs → img.write = .ok () →
        ToMarkdown.mdImgStep fname base p i0 img =
          .keep ⟨"![Page " ++ toString p ++ " Image " ++ toString (i0 + 1) ++ "](" ++
                   ToMarkdown.mdRelPath p (i0 + 1) "png" ++ ")",
                 .obj [("page", .num p), ("index", .num (i0 + 1)),
                       ("path", .str (base ++ "/" ++ ToMarkdown.mdRelPath p (i0 + 1) "png")),
                       ("filename", .str ("page-" ++ toString p ++ "-image-" ++
                          toString (i0 + 1) ++ ".png")),
                       ("mime_type", .str "image/png")],
                 (base ++ "/" ++ ToMarkdown.mdRelPath p (i0 + 1) "png", pbs)⟩)) := by
  intro fname base p i0 img info t hex hext ht
  constructor
  · intro hmem bs himg hw
    simp only [ToMarkdown.mdImgStep, hex, hext, ht, if_false, hmem, if_true, himg, hw]
  · intro hmem pbs hpix hw
    simp only [ToMarkdown.mdImgStep, hex, hext, ht, if_false, hmem, hpix, hw]
    simp [String.append_assoc]

/-- C5 witness: the statement at a concrete pass-through image (tag "JPEG")
and a concrete re-rendered image (tag "bmp"). -/
theorem c5_witness :
    cImgJpegUpper.extract = Except.ok ⟨some "JPEG", some [4, 5]⟩ ∧
    toLowerPy "JPEG" ∈ ["png", "jpg", "jpeg"] ∧
    ToMarkdown.mdImgStep "mix.pdf" "mix" 1 0 cImgJpegUpper =
      .keep ⟨"![Page 1 Image 1](images/page-1-image-1.jpeg)",
             .obj [("page", .num 1), ("index", .num 1),
                   ("path", .str "mix/images/page-1-image-1.jpeg"),
                   ("filename", .str "page-1-image-1.jpeg"),
                   ("mime_type", .str "image/jpeg")],
             ("mix/images/page-1-image-1.jpeg", [4, 5])⟩ ∧
    toLowerPy "bmp" ∉ ["png", "jpg", "jpeg"] ∧
    ToMarkdown.mdImgStep "mix.pdf" "mix" 1 2 cImgBmp =
      .keep ⟨"![Page 1 Image 3](images/page-1-image-3.png)",
             .obj [("page", .num 1), ("index", .num 3),
                   ("path", .str "mix/images/page-1-image-3.png"),
                   ("filename", .str "page-1-image-3.png"),
                   ("mime_type", .str "image/png")],
             ("mix/images/page-1-image-3.png", [7, 7, 7])⟩ := by
  refine ⟨rfl, by decide, ?_, by decide, ?_⟩
  · exact ((c5_format_normalization "mix.pdf" "mix" 1 0 cImgJpegUpper
      ⟨some "JPEG", some [4, 5]⟩ "JPEG" rfl rfl (by decide)).1
      (by decide) [4, 5] rfl rfl)
  · exact ((c5_format_normalization "mix.pdf" "mix" 1 2 cImgBmp
      ⟨some "bmp", some [6, 6]⟩ "bmp" rfl rfl (by decide)).2
      (by decide) [7, 7, 7] rfl rfl)

/-- C6 counterexample: the Markdown tool in src/tools/to_markdown.py accepts
no `paginate` parameter (`ToolParameters` declares only `files`, and unknown
input keys are ignored), and at its default behaviour the produced Markdown
does contain per-page headings: for a one-page file the written Markdown is
"## Page 1\n\nhello", carrying one occurrence of a "## Page " heading where
the claim requires none. -/
theorem c6_cex :
    (ToMarkdown.mdProcessFile cGood2).written =
      [("other/other.md", strEncode "## Page 1\n\nhello")] ∧
    (ToMarkdown.invokeMsgs ⟨some [cGood2]⟩).getLast? =
      some (Msg.blob (.zip [("other/other.md", strEncode "## Page 1\n\nhello")])
        (.obj [("mime_type", .str "application/zip"),
               ("files", .arr [.obj [("path", .str "other/other.md"),
                                     ("filename", .str "other.md"),
                                     ("mime_type", .str "text/markdown")]])])) ∧
    countOcc "## Page " "## Page 1\n\nhello" ≠ 0 :=
  ⟨rfl, rfl, by decide⟩

/-- C6 amended: the Markdown tool has no `paginate` parameter; in every run
each successfully read page's fragment in the produced Markdown is preceded
by the heading `"## Page <n>"` with `n` the 1-based page number: the page
loop prepends the heading and the stripped page text to that page's lines,
pages compose in order, and the written Markdown is the "\n\n"-join of all
lines, stripped. -/
theorem c6_amended :
    (∀ (fname base : String) (i : Nat) (t : String) (imgs : List ImgSpec)
        (ps : List PageSpec) (acc : ToMarkdown.PagesAcc),
      ToMarkdown.mdPages fname base (i + 1) ps = .ok acc →
      ToMarkdown.mdPages fname base i ((⟨.ok t, imgs⟩ : PageSpec) :: ps) =
        .ok (ToMarkdown.PagesAcc.append (ToMarkdown.mdPageOut fname base i t imgs) acc)) ∧
    (∀ (fname base : String) (i : Nat) (t : String) (imgs : List ImgSpec),
      (ToMarkdown.mdPageOut fname base i t imgs).mdLines =
        ("## Page " ++ toString (i + 1)) :: (if t = "" then "" else pyStrip t) ::
          (ToMarkdown.mdImgs fname base (i + 1) 0 imgs).mdLines) ∧
    (∀ mdLines : List String,
      ToMarkdown.markdownContent mdLines = pyStrip (joinSep "\n\n" mdLines)) := by
  refine ⟨?_, fun _ _ _ _ _ => rfl, fun _ => rfl⟩
  intro fname base i t imgs ps acc h
  simp only [ToMarkdown.mdPages, h]

/-- C6 witness: the amended statement at a concrete page. -/
theorem c6_witness :
    ToMarkdown.mdPages "other.pdf" "other" 0 [(⟨.ok "hello", []⟩ : PageSpec)] =
      .ok (ToMarkdown.PagesAcc.append (ToMarkdown.mdPageOut "other.pdf" "other" 0 "hello" [])
        ⟨[], [], [], [], []⟩) ∧
    (ToMarkdown.mdPageOut "other.pdf" "other" 0 "hello" []).mdLines =
      ("## Page " ++ toString 1) :: (if "hello" = "" then "" else pyStrip "hello") ::
        (ToMarkdown.mdImgs "other.pdf" "other" 1 0 []).mdLines :=
  ⟨c6_amended.1 "other.pdf" "other" 0 "hello" [] [] ⟨[], [], [], [], []⟩ rfl,
   c6_amended.2.1 "other.pdf" "other" 0 "hello" []⟩
